import Mathlib

set_option maxRecDepth 100000

/-!
Verification of the Click payment integration core (`src/click.ts`,
`src/types.ts`): the MD5-based signature verifier, the Prepare/Complete
transaction handlers and the error-response formatter, embedded shallowly.
Collaborator functions (`checkOrder`, `checkPayment`, `onPrepare`,
`onSuccess`, `onFail`) are modelled as pure functions that either return a
value or throw (`Except Unit`), and each handler additionally returns the
list of collaborator calls it made, so that "collaborator X is (not)
invoked" becomes a statement about that list.
-/

namespace Click

/-! ## MD5 (as used by `crypto.createHash('md5')` in `generateMD5`) -/

/-- Truncation to 32 bits. -/
def w32 (n : Nat) : Nat := n % 4294967296

/-- Modular addition on 32 bits. -/
def wAdd (a b : Nat) : Nat := (a + b) % 4294967296

/-- Bitwise complement on 32 bits (argument assumed reduced). -/
def wNot (a : Nat) : Nat := 4294967295 - a % 4294967296

/-- Left rotation on 32 bits by `s` (argument assumed reduced, `s ≤ 32`). -/
def wRotl (x s : Nat) : Nat := ((x <<< s) ||| (x >>> (32 - s))) % 4294967296

/-- The 64 MD5 sine-derived round constants. -/
def md5KTable : List Nat :=
  [3614090360, 3905402710, 606105819, 3250441966, 4118548399, 1200080426,
   2821735955, 4249261313, 1770035416, 2336552879, 4294925233, 2304563134,
   1804603682, 4254626195, 2792965006, 1236535329, 4129170786, 3225465664,
   643717713, 3921069994, 3593408605, 38016083, 3634488961, 3889429448,
   568446438, 3275163606, 4107603335, 1163531501, 2850285829, 4243563512,
   1735328473, 2368359562, 4294588738, 2272392833, 1839030562, 4259657740,
   2763975236, 1272893353, 4139469664, 3200236656, 681279174, 3936430074,
   3572445317, 76029189, 3654602809, 3873151461, 530742520, 3299628645,
   4096336452, 1126891415, 2878612391, 4237533241, 1700485571, 2399980690,
   4293915773, 2240044497, 1873313359, 4264355552, 2734768916, 1309151649,
   4149444226, 3174756917, 718787259, 3951481745]

/-- The 64 MD5 per-round left-rotation amounts. -/
def md5STable : List Nat :=
  [7, 12, 17, 22, 7, 12, 17, 22, 7, 12, 17, 22, 7, 12, 17, 22,
   5, 9, 14, 20, 5, 9, 14, 20, 5, 9, 14, 20, 5, 9, 14, 20,
   4, 11, 16, 23, 4, 11, 16, 23, 4, 11, 16, 23, 4, 11, 16, 23,
   6, 10, 15, 21, 6, 10, 15, 21, 6, 10, 15, 21, 6, 10, 15, 21]

/-- Little-endian byte decomposition of `n` into `k` bytes. -/
def leBytes (n k : Nat) : List Nat := (List.range k).map (fun i => n / 2 ^ (8 * i) % 256)

/-- Little-endian 32-bit word from a byte list. -/
def leWord (bs : List Nat) : Nat := bs.foldr (fun b acc => acc * 256 + b) 0

/-- The sixteen 32-bit message words of one 64-byte chunk. -/
def chunkWords (chunk : List Nat) : List Nat :=
  (List.range 16).map (fun j => leWord ((chunk.drop (4 * j)).take 4))

/-- One of the 64 MD5 operations: round function, message index, constant,
rotation, state rotation. -/
def md5Round (M : List Nat) (st : Nat × Nat × Nat × Nat) (i : Nat) :
    Nat × Nat × Nat × Nat :=
  let (A, B, C, D) := st
  let fg : Nat × Nat :=
    if i < 16 then ((B &&& C) ||| (wNot B &&& D), i)
    else if i < 32 then ((D &&& B) ||| (wNot D &&& C), (5 * i + 1) % 16)
    else if i < 48 then (B ^^^ C ^^^ D, (3 * i + 5) % 16)
    else (C ^^^ (B ||| wNot D), (7 * i) % 16)
  let F := (fg.1 + A + md5KTable.getD i 0 + M.getD fg.2 0) % 4294967296
  (D, wAdd B (wRotl F (md5STable.getD i 0)), B, C)

/-- Process one 64-byte chunk. -/
def md5Chunk (st : Nat × Nat × Nat × Nat) (chunk : List Nat) :
    Nat × Nat × Nat × Nat :=
  let M := chunkWords chunk
  let r := (List.range 64).foldl (md5Round M) st
  (wAdd st.1 r.1, wAdd st.2.1 r.2.1, wAdd st.2.2.1 r.2.2.1, wAdd st.2.2.2 r.2.2.2)

/-- Process `n` chunks of 64 bytes taken from the front of `bs`. -/
def md5Chunks (st : Nat × Nat × Nat × Nat) (bs : List Nat) : Nat → Nat × Nat × Nat × Nat
  | 0 => st
  | n + 1 => md5Chunks (md5Chunk st (bs.take 64)) (bs.drop 64) n

/-- MD5 padding: a 0x80 byte, zeros to 56 mod 64, then the 64-bit
little-endian bit length. -/
def md5Pad (msg : List Nat) : List Nat :=
  msg ++ [128] ++ List.replicate ((119 - msg.length % 64) % 64) 0
      ++ leBytes (8 * msg.length % 2 ^ 64) 8

/-- Lowercase hex digit. -/
def hexDigit (n : Nat) : Char := if n < 10 then Char.ofNat (48 + n) else Char.ofNat (87 + n)

/-- Two lowercase hex digits of a byte. -/
def byteHex (b : Nat) : List Char := [hexDigit (b / 16), hexDigit (b % 16)]

/-- MD5 digest of a byte sequence, as a lowercase hex string. -/
def md5Hex (msg : List Nat) : String :=
  let padded := md5Pad msg
  let r := md5Chunks (1732584193, 4023233417, 2562383102, 271733878) padded
      (padded.length / 64)
  String.mk ((([r.1, r.2.1, r.2.2.1, r.2.2.2].map (fun x => leBytes x 4)).flatten.map byteHex).flatten)

/-- UTF-8 encoding of one code point. -/
def utf8Encode (c : Nat) : List Nat :=
  if c < 128 then [c]
  else if c < 2048 then [192 + c / 64, 128 + c % 64]
  else if c < 65536 then [224 + c / 4096, 128 + c / 64 % 64, 128 + c % 64]
  else [240 + c / 262144, 128 + c / 4096 % 64, 128 + c / 64 % 64, 128 + c % 64]

/-- UTF-8 bytes of a string (what `crypto.update` hashes by default). -/
def strBytes (s : String) : List Nat := (s.data.map (fun ch => utf8Encode ch.toNat)).flatten

/-- MD5 digest of a string, lowercase hex. -/
def md5String (s : String) : String := md5Hex (strBytes s)

/-! ## Data model (`src/types.ts`) -/

/-- The inbound webhook payload (`ClickRequestDTO`). Numeric JS fields are
modelled as `Int`. -/
structure ClickRequestDTO where
  click_trans_id : Int
  service_id : String
  click_paydoc_id : String
  merchant_trans_id : String
  merchant_prepare_id : String
  amount : Int
  action : Int
  error : String
  error_note : String
  sign_time : String
  sign_string : String
  click_paydoc_type : String
deriving DecidableEq, Repr

/-- Result of the `checkOrder` collaborator; `exists` is a Lean keyword, so
the field is named `exists'`. -/
structure OrderLookupResult where
  exists' : Bool
  amount : Option Int
deriving DecidableEq, Repr

/-- Result of the `onPrepare` collaborator. -/
structure PrepareResult where
  prepare_id : String
deriving DecidableEq, Repr

/-- The single response shape produced by the handlers: `merchant_prepare_id`
is `none` when the JS object omits the field (non-Prepare error responses and
Complete success responses). -/
structure ClickResponse where
  click_trans_id : Int
  merchant_trans_id : String
  merchant_prepare_id : Option String
  error : Int
  error_note : String
deriving DecidableEq, Repr

/-- The `ClickError` enum values (`src/types.ts`). -/
def ClickError.Success : Int := 0

/-- Enum value `SignFailed = -1`. -/
def ClickError.SignFailed : Int := -1

/-- Enum value `InvalidAmount = -2`. -/
def ClickError.InvalidAmount : Int := -2

/-- Enum value `ActionNotFound = -3`. -/
def ClickError.ActionNotFound : Int := -3

/-- Enum value `AlreadyPaid = -4`. -/
def ClickError.AlreadyPaid : Int := -4

/-- Enum value `UserNotFound = -5`. -/
def ClickError.UserNotFound : Int := -5

/-- Enum value `TransactionNotFound = -6`. -/
def ClickError.TransactionNotFound : Int := -6

/-- Enum value `TransactionCanceled = -7`. -/
def ClickError.TransactionCanceled : Int := -7

/-- Enum value `TransactionActions.Prepare = 0`. -/
def TransactionActions.Prepare : Int := 0

/-- Enum value `TransactionActions.Complete = 1`. -/
def TransactionActions.Complete : Int := 1

/-- One collaborator invocation, recorded with its arguments. -/
inductive CollabCall where
  | checkOrder : String → CollabCall
  | checkPayment : String → CollabCall
  | onPrepare : Int → String → Int → CollabCall
  | onSuccess : Int → String → String → CollabCall
  | onFail : Int → String → Int → String → CollabCall
deriving DecidableEq, Repr

/-- The configuration (`ClickConfig`): identifiers, secret, and the
collaborators. A collaborator either returns a value or throws
(`Except Unit`). `onFail` is fire-and-forget — its outcome is discarded by
the source (`.catch(console.error)`), so only its presence is modelled. -/
structure ClickConfig where
  serviceId : String
  merchantId : String
  secretKey : String
  checkOrder : String → Except Unit OrderLookupResult
  checkPayment : Option (String → Except Unit Bool)
  onPrepare : Int → String → Int → Except Unit PrepareResult
  onSuccess : Int → String → String → Except Unit Unit
  onFail : Bool

/-! ## Signature verifier (`generateMD5`, `validateSignString`) -/

/-- Function `generateMD5`: joins the stringified field values with no
delimiter (`Object.values(params).join('')`) and returns the hex MD5. -/
def generateMD5 (params : List String) : String := md5String (String.join params)

/-- Function `validateSignString`: builds the value sequence in JS object
insertion order — `clickTransId, serviceId, secretKey, merchantTransId,
amount, action, signTime`, with `merchantPrepareId` added (at the end) when
`includesPrepareId` — and compares `sign_string` with the digest. -/
def validateSignString (cfg : ClickConfig) (data : ClickRequestDTO)
    (includesPrepareId : Bool) : Bool :=
  let md5Params := [toString data.click_trans_id, data.service_id, cfg.secretKey,
    data.merchant_trans_id, toString data.amount, toString data.action, data.sign_time]
  let md5Params := if includesPrepareId then md5Params ++ [data.merchant_prepare_id]
    else md5Params
  data.sign_string == generateMD5 md5Params

/-! ## Error formatter (`createErrorResponse`) -/

/-- Function `createErrorResponse`: builds the error response (with an empty
`merchant_prepare_id` exactly when `data.action` is `Prepare`) and notifies
`onFail` when configured. Returns the response together with the collaborator
calls it makes. -/
def createErrorResponse (cfg : ClickConfig) (error : Int) (errorNote : String)
    (data : ClickRequestDTO) : ClickResponse × List CollabCall :=
  ({ click_trans_id := data.click_trans_id
     merchant_trans_id := data.merchant_trans_id
     merchant_prepare_id :=
       if data.action = TransactionActions.Prepare then some "" else none
     error := error
     error_note := errorNote },
   if cfg.onFail then
     [CollabCall.onFail data.click_trans_id data.merchant_trans_id error errorNote]
   else [])

/-! ## Prepare handler -/

/-- Step 5 of `prepare`: call `onPrepare` and build the success response. -/
def prepareStep5 (cfg : ClickConfig) (data : ClickRequestDTO) :
    Except Unit ClickResponse × List CollabCall :=
  let call := CollabCall.onPrepare data.click_trans_id data.merchant_trans_id data.amount
  match cfg.onPrepare data.click_trans_id data.merchant_trans_id data.amount with
  | .error e => (.error e, [call])
  | .ok pr =>
    (.ok { click_trans_id := data.click_trans_id
           merchant_trans_id := data.merchant_trans_id
           merchant_prepare_id := some pr.prepare_id
           error := ClickError.Success
           error_note := "Success" }, [call])

/-- Step 4 of `prepare`: the optional `checkPayment` duplicate check, then
step 5. -/
def prepareStep4 (cfg : ClickConfig) (data : ClickRequestDTO) :
    Except Unit ClickResponse × List CollabCall :=
  match cfg.checkPayment with
  | none => prepareStep5 cfg data
  | some cp =>
    let call := CollabCall.checkPayment data.merchant_trans_id
    match cp data.merchant_trans_id with
    | .error e => (.error e, [call])
    | .ok true =>
      let r := createErrorResponse cfg ClickError.AlreadyPaid "Already paid" data
      (.ok r.1, call :: r.2)
    | .ok false =>
      let r := prepareStep5 cfg data
      (r.1, call :: r.2)

/-- The JS guard `order.amount && order.amount !== data.amount`: it fires only
when the looked-up amount is present, nonzero (truthiness) and differs from
the payload amount. -/
def amountMismatch (orderAmount : Option Int) (payloadAmount : Int) : Bool :=
  match orderAmount with
  | none => false
  | some a => a != 0 && a != payloadAmount

/-- The `try` body of `prepare` (steps 1–3, then step 4/5); a `.error` result
is an uncaught collaborator exception reaching the `catch`. -/
def prepareBody (cfg : ClickConfig) (data : ClickRequestDTO) :
    Except Unit ClickResponse × List CollabCall :=
  if ! validateSignString cfg data false then
    let r := createErrorResponse cfg ClickError.SignFailed "Invalid sign_string" data
    (.ok r.1, r.2)
  else
    let call := CollabCall.checkOrder data.merchant_trans_id
    match cfg.checkOrder data.merchant_trans_id with
    | .error e => (.error e, [call])
    | .ok order =>
      if ! order.exists' then
        let r := createErrorResponse cfg ClickError.UserNotFound "Order not found" data
        (.ok r.1, call :: r.2)
      else if amountMismatch order.amount data.amount then
        let r := createErrorResponse cfg ClickError.InvalidAmount "Invalid amount" data
        (.ok r.1, call :: r.2)
      else
        let r := prepareStep4 cfg data
        (r.1, call :: r.2)

/-- Function `prepare`: the body wrapped in its `catch`, which maps any
collaborator exception to a `UserNotFound` error response. -/
def prepare (cfg : ClickConfig) (data : ClickRequestDTO) :
    ClickResponse × List CollabCall :=
  match prepareBody cfg data with
  | (.ok r, tr) => (r, tr)
  | (.error _, tr) =>
    let r := createErrorResponse cfg ClickError.UserNotFound "Internal prepare error" data
    (r.1, tr ++ r.2)

/-! ## Complete handler -/

/-- Characters skipped by JS `parseInt` before the number. -/
def jsIsSpace (c : Char) : Bool :=
  c = ' ' || c = '\t' || c = '\n' || c = '\r' || c.toNat = 11 || c.toNat = 12 || c.toNat = 160

/-- Decimal digit value. -/
def decDigit (c : Char) : Option Nat :=
  if '0' ≤ c && c ≤ '9' then some (c.toNat - 48) else none

/-- Hexadecimal digit value. -/
def hexDigitVal (c : Char) : Option Nat :=
  if '0' ≤ c && c ≤ '9' then some (c.toNat - 48)
  else if 'a' ≤ c && c ≤ 'f' then some (c.toNat - 87)
  else if 'A' ≤ c && c ≤ 'F' then some (c.toNat - 55)
  else none

/-- Longest digit prefix read as a number; `none` when no digit was read. -/
def takeNum (f : Char → Option Nat) (base : Nat) :
    List Char → Option Nat → Option Nat
  | [], acc => acc
  | c :: cs, acc =>
    match f c with
    | some d => takeNum f base cs (some (acc.getD 0 * base + d))
    | none => acc

/-- JavaScript `parseInt` with no radix argument: skip whitespace, optional
sign, optional `0x`/`0X` hex prefix, then the longest digit prefix; `none`
models `NaN`. -/
def jsParseInt (s : String) : Option Int :=
  let cs := s.data.dropWhile jsIsSpace
  let sign : Int := match cs with | '-' :: _ => -1 | _ => 1
  let cs := match cs with | '-' :: rest => rest | '+' :: rest => rest | _ => cs
  match cs with
  | '0' :: 'x' :: rest => (takeNum hexDigitVal 16 rest none).map (fun n => sign * n)
  | '0' :: 'X' :: rest => (takeNum hexDigitVal 16 rest none).map (fun n => sign * n)
  | _ => (takeNum decDigit 10 cs none).map (fun n => sign * n)

/-- Step 4 of `complete`: call `onSuccess` and build the success response. -/
def completeStep4 (cfg : ClickConfig) (data : ClickRequestDTO) :
    Except Unit ClickResponse × List CollabCall :=
  let call := CollabCall.onSuccess data.click_trans_id data.merchant_trans_id
    data.merchant_prepare_id
  match cfg.onSuccess data.click_trans_id data.merchant_trans_id data.merchant_prepare_id with
  | .error e => (.error e, [call])
  | .ok _ =>
    (.ok { click_trans_id := data.click_trans_id
           merchant_trans_id := data.merchant_trans_id
           merchant_prepare_id := none
           error := ClickError.Success
           error_note := "Success" }, [call])

/-- The `try` body of `complete` (steps 1–3, then step 4). The provider-error
short-circuit is the JS guard `parseInt(data.error) > 0` (false on `NaN`). -/
def completeBody (cfg : ClickConfig) (data : ClickRequestDTO) :
    Except Unit ClickResponse × List CollabCall :=
  if ! validateSignString cfg data true then
    let r := createErrorResponse cfg ClickError.SignFailed "Invalid sign_string" data
    (.ok r.1, r.2)
  else
    let call := CollabCall.checkOrder data.merchant_trans_id
    match cfg.checkOrder data.merchant_trans_id with
    | .error e => (.error e, [call])
    | .ok order =>
      if ! order.exists' then
        let r := createErrorResponse cfg ClickError.UserNotFound "Order not found" data
        (.ok r.1, call :: r.2)
      else
        match jsParseInt data.error with
        | some n =>
          if 0 < n then
            let r := createErrorResponse cfg n "Click error" data
            (.ok r.1, call :: r.2)
          else
            let r := completeStep4 cfg data
            (r.1, call :: r.2)
        | none =>
          let r := completeStep4 cfg data
          (r.1, call :: r.2)

/-- Function `complete`: the body wrapped in its `catch`, which maps any
collaborator exception to a `UserNotFound` error response. -/
def complete (cfg : ClickConfig) (data : ClickRequestDTO) :
    ClickResponse × List CollabCall :=
  match completeBody cfg data with
  | (.ok r, tr) => (r, tr)
  | (.error _, tr) =>
    let r := createErrorResponse cfg ClickError.UserNotFound "Internal complete error" data
    (r.1, tr ++ r.2)

/-- Function `handleTransaction`: dispatch on `+data.action`. -/
def handleTransaction (cfg : ClickConfig) (data : ClickRequestDTO) :
    ClickResponse × List CollabCall :=
  if data.action = TransactionActions.Prepare then prepare cfg data
  else if data.action = TransactionActions.Complete then complete cfg data
  else createErrorResponse cfg ClickError.ActionNotFound "Invalid action" data

/-! ## Helper predicates on recorded collaborator calls -/

/-- Whether a recorded call is an `onPrepare` invocation. -/
def isOnPrepare : CollabCall → Bool
  | .onPrepare _ _ _ => true
  | _ => false

/-- Whether a recorded call is an `onSuccess` invocation. -/
def isOnSuccess : CollabCall → Bool
  | .onSuccess _ _ _ => true
  | _ => false

/-! ## Concrete fixtures for witnesses and counterexamples

The secret key is "K", the service id "S" and the sign time "T" throughout;
the `sign_string` constants below are the actual MD5 digests of the
corresponding concatenations (checked against the definitions here by
kernel evaluation in the theorems that use them). -/

/-- Collaborators of spec Scenario A: the order exists with amount 1000, no
duplicate-payment check, `onPrepare` yields reference "P1". -/
def cfgA : ClickConfig :=
  { serviceId := "S", merchantId := "MID", secretKey := "K"
    checkOrder := fun _ => .ok { exists' := true, amount := some 1000 }
    checkPayment := none
    onPrepare := fun _ _ _ => .ok { prepare_id := "P1" }
    onSuccess := fun _ _ _ => .ok ()
    onFail := false }

/-- Like `cfgA` but the looked-up order amount is 500. -/
def cfgAmount500 : ClickConfig :=
  { cfgA with checkOrder := fun _ => .ok { exists' := true, amount := some 500 } }

/-- Like `cfgA` but the looked-up order amount is 0 (JS-falsy). -/
def cfgAmount0 : ClickConfig :=
  { cfgA with checkOrder := fun _ => .ok { exists' := true, amount := some 0 } }

/-- Like `cfgA` but the order does not exist. -/
def cfgNotFound : ClickConfig :=
  { cfgA with checkOrder := fun _ => .ok { exists' := false, amount := none } }

/-- Like `cfgA` but `checkOrder` throws. -/
def cfgThrow : ClickConfig :=
  { cfgA with checkOrder := fun _ => .error () }

/-- Like `cfgA` but the order exists with no amount recorded. -/
def cfgExists : ClickConfig :=
  { cfgA with checkOrder := fun _ => .ok { exists' := true, amount := none } }

/-- Like `cfgExists` but with the optional `onFail` notifier configured. -/
def cfgFail : ClickConfig :=
  { cfgExists with onFail := true }

/-- Scenario A Prepare payload: transactionId 1, order "O1", amount 1000,
action 0; its `sign_string` is MD5 of "1SKO110000T". -/
def dPrepOk : ClickRequestDTO :=
  { click_trans_id := 1, service_id := "S", click_paydoc_id := ""
    merchant_trans_id := "O1", merchant_prepare_id := ""
    amount := 1000, action := 0, error := "0", error_note := ""
    sign_time := "T", sign_string := "3b6f0e4b6a209eb0917766f3ea541361"
    click_paydoc_type := "" }

/-- Complete payload with provider error field `e`: transactionId 1, order
"M", prepare id "P", amount 2, action 1; its `sign_string` is MD5 of
"1SKM21TP" (the error field is not part of the digest). -/
def dComp (e : String) : ClickRequestDTO :=
  { click_trans_id := 1, service_id := "S", click_paydoc_id := ""
    merchant_trans_id := "M", merchant_prepare_id := "P"
    amount := 2, action := 1, error := e, error_note := ""
    sign_time := "T", sign_string := "23c9b2c4e5abcf31e3e24f711381db69"
    click_paydoc_type := "" }

/-- Payload whose `sign_string` "x" matches no digest (tampered), action 0. -/
def dBad : ClickRequestDTO :=
  { click_trans_id := 0, service_id := "", click_paydoc_id := ""
    merchant_trans_id := "", merchant_prepare_id := ""
    amount := 0, action := 0, error := "", error_note := ""
    sign_time := "", sign_string := "x", click_paydoc_type := "" }

/-- Payload with the unknown action value 5. -/
def dAct5 : ClickRequestDTO :=
  { dBad with action := 5 }

/-! ## Theorems -/

/-- C8: for the Scenario A Prepare payload (transactionId 1, order "O1",
amount 1000, action 0, valid signature), with an order of amount 1000, no
`checkPayment`, and `onPrepare` returning "P1", `handleTransaction` returns
exactly the response with transactionId 1, order "O1", prepare reference
"P1", error 0 and note "Success". -/
theorem C8_scenario_a :
    (handleTransaction cfgA dPrepOk).1 =
      { click_trans_id := 1, merchant_trans_id := "O1"
        merchant_prepare_id := some "P1", error := ClickError.Success
        error_note := "Success" } := by
  decide

/-- C1 counterexample: for the Complete payload `dComp ""` whose
`sign_string` is the digest of the concatenation in the code's order (with
the prepare reference id last), the verifier succeeds, yet the digest of the
concatenation in the claimed order (prepare reference id before amount)
differs from `sign_string` — so verification is not equivalent to matching
the claimed-order digest. -/
theorem C1_counterexample :
    validateSignString cfgExists (dComp ("")) true = true ∧
    (dComp ("")).sign_string ≠ md5String (String.join
      [toString (dComp ("")).click_trans_id, (dComp ("")).service_id,
       cfgExists.secretKey, (dComp ("")).merchant_trans_id,
       (dComp ("")).merchant_prepare_id, toString (dComp ("")).amount,
       toString (dComp ("")).action, (dComp ("")).sign_time]) := by
  constructor <;> decide

/-- C1 (amended): the verifier concatenates the stringified values in the
order transactionId, serviceId, secretKey, merchantOrderId, amount, action,
signTimestamp, and then — only when `requireReferenceId` — the prepare
reference id at the END (after signTimestamp, not before amount); it
computes the lowercase-hex MD5 of that string and succeeds if and only if
the digest equals `payload.signature` byte-for-byte. -/
theorem C1_signature_field_order (cfg : ClickConfig) (data : ClickRequestDTO)
    (includesPrepareId : Bool) :
    validateSignString cfg data includesPrepareId = true ↔
      data.sign_string = md5String (String.join
        ([toString data.click_trans_id, data.service_id, cfg.secretKey,
          data.merchant_trans_id, toString data.amount, toString data.action,
          data.sign_time] ++
         if includesPrepareId then [data.merchant_prepare_id] else [])) := by
  cases includesPrepareId <;>
    simp [validateSignString, generateMD5, beq_iff_eq]

/-- C2 counterexample: on a tampered-signature Prepare call with the
optional `onFail` notifier configured, a collaborator (namely `onFail`) is
invoked, contrary to the claim that none of checkOrder, checkPayment,
onPrepare, onSuccess, onFail is invoked. -/
theorem C2_counterexample :
    validateSignString cfgFail dBad false = false ∧
    CollabCall.onFail 0 ("") ClickError.SignFailed ("Invalid sign_string")
      ∈ (prepare cfgFail dBad).2 := by
  constructor <;> decide

/-- C2 (amended): when the signature does not verify, both handlers return a
SignFailed (-1) response with note "Invalid sign_string", and the only
collaborator possibly invoked is the `onFail` notifier (invoked exactly when
configured); checkOrder, checkPayment, onPrepare and onSuccess are never
invoked. -/
theorem C2_sigfail_no_collaborators (cfg : ClickConfig) (data : ClickRequestDTO) :
    (validateSignString cfg data false = false →
      (prepare cfg data).1.error = ClickError.SignFailed ∧
      (prepare cfg data).1.error_note = "Invalid sign_string" ∧
      (prepare cfg data).2 = (if cfg.onFail then
        [CollabCall.onFail data.click_trans_id data.merchant_trans_id
          ClickError.SignFailed ("Invalid sign_string")] else [])) ∧
    (validateSignString cfg data true = false →
      (complete cfg data).1.error = ClickError.SignFailed ∧
      (complete cfg data).1.error_note = "Invalid sign_string" ∧
      (complete cfg data).2 = (if cfg.onFail then
        [CollabCall.onFail data.click_trans_id data.merchant_trans_id
          ClickError.SignFailed ("Invalid sign_string")] else [])) := by
  constructor <;> intro h <;>
    simp [prepare, complete, prepareBody, completeBody, createErrorResponse, h]

/-- C2 witness: the amended theorem applied to the tampered payload `dBad`
under `cfgFail`, in both Prepare and Complete mode. -/
theorem C2_sigfail_witness :
    validateSignString cfgFail dBad false = false ∧
    validateSignString cfgFail dBad true = false ∧
    (prepare cfgFail dBad).1.error = ClickError.SignFailed ∧
    (complete cfgFail dBad).1.error = ClickError.SignFailed := by
  exact ⟨by decide, by decide,
    ((C2_sigfail_no_collaborators cfgFail dBad).1 (by decide)).1,
    ((C2_sigfail_no_collaborators cfgFail dBad).2 (by decide)).1⟩

/-- C3 counterexample: on an unknown action (5) with the optional `onFail`
notifier configured, a collaborator (namely `onFail`) is invoked, contrary
to the claim that no collaborator function is invoked. -/
theorem C3_counterexample :
    (handleTransaction cfgFail dAct5).1.error = ClickError.ActionNotFound ∧
    CollabCall.onFail 0 ("") ClickError.ActionNotFound ("Invalid action")
      ∈ (handleTransaction cfgFail dAct5).2 := by
  constructor <;> decide

/-- C3 (amended): for an action value outside {Prepare = 0, Complete = 1},
`handleTransaction` returns an ActionNotFound (-3) error response regardless
of the signature, and the only collaborator possibly invoked is the `onFail`
notifier (invoked exactly when configured). -/
theorem C3_unknown_action (cfg : ClickConfig) (data : ClickRequestDTO)
    (h0 : data.action ≠ TransactionActions.Prepare)
    (h1 : data.action ≠ TransactionActions.Complete) :
    (handleTransaction cfg data).1.error = ClickError.ActionNotFound ∧
    (handleTransaction cfg data).1.error_note = "Invalid action" ∧
    (handleTransaction cfg data).2 = (if cfg.onFail then
      [CollabCall.onFail data.click_trans_id data.merchant_trans_id
        ClickError.ActionNotFound ("Invalid action")] else []) := by
  simp [handleTransaction, createErrorResponse, h0, h1]

/-- C3 witness: the amended theorem applied to the action-5 payload under a
configuration without `onFail`. -/
theorem C3_unknown_action_witness :
    (handleTransaction cfgA dAct5).1.error = ClickError.ActionNotFound ∧
    (handleTransaction cfgA dAct5).1.error_note = "Invalid action" ∧
    (handleTransaction cfgA dAct5).2 = (if cfgA.onFail then
      [CollabCall.onFail dAct5.click_trans_id dAct5.merchant_trans_id
        ClickError.ActionNotFound ("Invalid action")] else []) := by
  exact C3_unknown_action cfgA dAct5 (by decide) (by decide)

/-- C4 counterexample: a valid-signature Prepare request whose order lookup
returns the defined amount 0, different from the payload amount 1000,
does not yield InvalidAmount: the truthiness guard skips the comparison,
`onPrepare` runs and the response is Success. -/
theorem C4_counterexample :
    validateSignString cfgAmount0 dPrepOk false = true ∧
    cfgAmount0.checkOrder ("O1") = .ok { exists' := true, amount := some 0 } ∧
    dPrepOk.amount ≠ (0 : Int) ∧
    (handleTransaction cfgAmount0 dPrepOk).1.error ≠ ClickError.InvalidAmount ∧
    (handleTransaction cfgAmount0 dPrepOk).1.error = ClickError.Success ∧
    CollabCall.onPrepare 1 ("O1") 1000 ∈ (handleTransaction cfgAmount0 dPrepOk).2 := by
  refine ⟨by decide, by rfl, by decide, by decide, by decide, by decide⟩

/-- C4 (amended): for every Prepare request with a valid signature where
`checkOrder` returns exists = true with a defined NONZERO amount that differs
from the payload amount, the response is InvalidAmount (-2) with an empty
`merchant_prepare_id`, and `onPrepare` is never invoked. -/
theorem C4_nonzero_amount_mismatch (cfg : ClickConfig) (data : ClickRequestDTO)
    (order : OrderLookupResult) (a : Int)
    (hact : data.action = TransactionActions.Prepare)
    (hsig : validateSignString cfg data false = true)
    (hord : cfg.checkOrder data.merchant_trans_id = .ok order)
    (hex : order.exists' = true)
    (hamt : order.amount = some a) (ha0 : a ≠ 0) (hane : a ≠ data.amount) :
    (handleTransaction cfg data).1.error = ClickError.InvalidAmount ∧
    (handleTransaction cfg data).1.merchant_prepare_id = some "" ∧
    ∀ c ∈ (handleTransaction cfg data).2, isOnPrepare c = false := by
  cases hcf : cfg.onFail <;>
    simp [handleTransaction, hact, prepare, prepareBody, hsig, hord, hex,
      amountMismatch, hamt, ha0, hane, createErrorResponse, isOnPrepare, hcf]

/-- C4 witness: the amended theorem applied to the Scenario A payload with a
looked-up order amount of 500 ≠ 1000. -/
theorem C4_nonzero_amount_mismatch_witness :
    validateSignString cfgAmount500 dPrepOk false = true ∧
    (handleTransaction cfgAmount500 dPrepOk).1.error = ClickError.InvalidAmount ∧
    (handleTransaction cfgAmount500 dPrepOk).1.merchant_prepare_id = some "" ∧
    ∀ c ∈ (handleTransaction cfgAmount500 dPrepOk).2, isOnPrepare c = false := by
  have h := C4_nonzero_amount_mismatch cfgAmount500 dPrepOk
    { exists' := true, amount := some 500 } 500 (by decide) (by decide) (by rfl)
    (by decide) (by decide) (by decide) (by decide)
  exact ⟨by decide, h.1, h.2.1, h.2.2⟩

/-- C5: whenever the body of a handler ends with an uncaught collaborator
exception, the handler's `catch` converts it into the well-formed
UserNotFound (-5) internal-error response; together with the totality of
`handleTransaction`, no fault propagates to the caller. -/
theorem C5_collaborator_exception_caught (cfg : ClickConfig) (data : ClickRequestDTO) :
    (∀ e tr, prepareBody cfg data = (.error e, tr) →
      (prepare cfg data).1 =
        { click_trans_id := data.click_trans_id
          merchant_trans_id := data.merchant_trans_id
          merchant_prepare_id :=
            if data.action = TransactionActions.Prepare then some "" else none
          error := ClickError.UserNotFound
          error_note := "Internal prepare error" }) ∧
    (∀ e tr, completeBody cfg data = (.error e, tr) →
      (complete cfg data).1 =
        { click_trans_id := data.click_trans_id
          merchant_trans_id := data.merchant_trans_id
          merchant_prepare_id :=
            if data.action = TransactionActions.Prepare then some "" else none
          error := ClickError.UserNotFound
          error_note := "Internal complete error" }) := by
  constructor <;> intro e tr h <;>
    simp [prepare, complete, h, createErrorResponse]

/-- C5 witness: with a `checkOrder` that throws, both handler bodies raise on
their valid-signature payloads and both handlers return the -5
internal-error response. -/
theorem C5_collaborator_exception_caught_witness :
    prepareBody cfgThrow dPrepOk = (.error (), [CollabCall.checkOrder ("O1")]) ∧
    completeBody cfgThrow (dComp ("")) = (.error (), [CollabCall.checkOrder ("M")]) ∧
    (prepare cfgThrow dPrepOk).1.error = ClickError.UserNotFound ∧
    (prepare cfgThrow dPrepOk).1.error_note = "Internal prepare error" ∧
    (complete cfgThrow (dComp (""))).1.error = ClickError.UserNotFound ∧
    (complete cfgThrow (dComp (""))).1.error_note = "Internal complete error" := by
  have h1 := (C5_collaborator_exception_caught cfgThrow dPrepOk).1 ()
    [CollabCall.checkOrder ("O1")] (by rfl)
  have h2 := (C5_collaborator_exception_caught cfgThrow (dComp (""))).2 ()
    [CollabCall.checkOrder ("M")] (by rfl)
  exact ⟨by rfl, by rfl, by rw [h1], by rw [h1], by rw [h2], by rw [h2]⟩

/-- C6: for every Complete request with a valid signature and an existing
order whose provider error field parses to a positive integer n, the
response's errorCode is exactly n (with note "Click error") and `onSuccess`
is never invoked. -/
theorem C6_provider_error_passthrough (cfg : ClickConfig) (data : ClickRequestDTO)
    (order : OrderLookupResult) (n : Int)
    (hact : data.action = TransactionActions.Complete)
    (hsig : validateSignString cfg data true = true)
    (hord : cfg.checkOrder data.merchant_trans_id = .ok order)
    (hex : order.exists' = true)
    (hperr : jsParseInt data.error = some n) (hpos : 0 < n) :
    (handleTransaction cfg data).1.error = n ∧
    (handleTransaction cfg data).1.error_note = "Click error" ∧
    ∀ c ∈ (handleTransaction cfg data).2, isOnSuccess c = false := by
  cases hcf : cfg.onFail <;>
    simp [handleTransaction, hact, complete, completeBody, hsig, hord, hex, hperr,
      hpos, createErrorResponse, isOnSuccess, hcf, TransactionActions.Prepare,
      TransactionActions.Complete]

/-- C6 witness: the theorem applied to the Complete payload whose error
field is "9". -/
theorem C6_provider_error_passthrough_witness :
    jsParseInt ((dComp ("9")).error) = some 9 ∧
    (handleTransaction cfgExists (dComp ("9"))).1.error = 9 ∧
    ∀ c ∈ (handleTransaction cfgExists (dComp ("9"))).2, isOnSuccess c = false := by
  have h := C6_provider_error_passthrough cfgExists (dComp ("9"))
    { exists' := true, amount := none } 9 (by decide) (by decide) (by rfl)
    (by decide) (by decide) (by decide)
  exact ⟨by decide, h.1, h.2.2⟩

/-- C7: when `checkOrder` reports that the order does not exist, a
valid-signature Prepare returns UserNotFound (-5) without invoking
`onPrepare`, and a valid-signature Complete returns UserNotFound (-5)
without invoking `onSuccess`. -/
theorem C7_order_not_found (cfg : ClickConfig) (data : ClickRequestDTO)
    (order : OrderLookupResult)
    (hord : cfg.checkOrder data.merchant_trans_id = .ok order)
    (hex : order.exists' = false) :
    (validateSignString cfg data false = true →
      (prepare cfg data).1.error = ClickError.UserNotFound ∧
      (prepare cfg data).1.error_note = "Order not found" ∧
      ∀ c ∈ (prepare cfg data).2, isOnPrepare c = false) ∧
    (validateSignString cfg data true = true →
      (complete cfg data).1.error = ClickError.UserNotFound ∧
      (complete cfg data).1.error_note = "Order not found" ∧
      ∀ c ∈ (complete cfg data).2, isOnSuccess c = false) := by
  constructor <;> intro hsig <;> cases hcf : cfg.onFail <;>
    simp [prepare, complete, prepareBody, completeBody, hsig, hord, hex,
      createErrorResponse, isOnPrepare, isOnSuccess, hcf]

/-- C7 witness: the theorem applied to the valid-signature Prepare and
Complete payloads under a nonexistent order. -/
theorem C7_order_not_found_witness :
    (prepare cfgNotFound dPrepOk).1.error = ClickError.UserNotFound ∧
    (∀ c ∈ (prepare cfgNotFound dPrepOk).2, isOnPrepare c = false) ∧
    (complete cfgNotFound (dComp (""))).1.error = ClickError.UserNotFound ∧
    (∀ c ∈ (complete cfgNotFound (dComp (""))).2, isOnSuccess c = false) := by
  have h1 := (C7_order_not_found cfgNotFound dPrepOk
    { exists' := false, amount := none } (by rfl) (by decide)).1 (by decide)
  have h2 := (C7_order_not_found cfgNotFound (dComp (""))
    { exists' := false, amount := none } (by rfl) (by decide)).2 (by decide)
  exact ⟨h1.1, h1.2.2, h2.1, h2.2.2⟩

/-- C9: for a valid-signature Prepare request where the looked-up order
exists with the defined amount 0, the amount comparison is skipped (JS
truthiness), and with no `checkPayment` configured and a succeeding
`onPrepare` the request succeeds even though the payload amount is
nonzero. -/
theorem C9_zero_amount_skips_check (cfg : ClickConfig) (data : ClickRequestDTO)
    (order : OrderLookupResult) (pr : PrepareResult)
    (hsig : validateSignString cfg data false = true)
    (hord : cfg.checkOrder data.merchant_trans_id = .ok order)
    (hex : order.exists' = true) (hamt : order.amount = some 0)
    (hcp : cfg.checkPayment = none)
    (hop : cfg.onPrepare data.click_trans_id data.merchant_trans_id data.amount = .ok pr)
    (_hna : data.amount ≠ 0) :
    (prepare cfg data).1 =
      { click_trans_id := data.click_trans_id
        merchant_trans_id := data.merchant_trans_id
        merchant_prepare_id := some pr.prepare_id
        error := ClickError.Success
        error_note := "Success" } ∧
    CollabCall.onPrepare data.click_trans_id data.merchant_trans_id data.amount
      ∈ (prepare cfg data).2 := by
  simp [prepare, prepareBody, prepareStep4, prepareStep5, hsig, hord, hex, hamt,
    amountMismatch, hcp, hop]

/-- C9 witness: the theorem applied to the Scenario A payload (amount 1000)
with a looked-up order amount of 0. -/
theorem C9_zero_amount_skips_check_witness :
    validateSignString cfgAmount0 dPrepOk false = true ∧
    dPrepOk.amount ≠ (0 : Int) ∧
    (prepare cfgAmount0 dPrepOk).1 =
      { click_trans_id := 1, merchant_trans_id := "O1"
        merchant_prepare_id := some "P1", error := ClickError.Success
        error_note := "Success" } := by
  have h := C9_zero_amount_skips_check cfgAmount0 dPrepOk
    { exists' := true, amount := some 0 } { prepare_id := "P1" }
    (by decide) (by rfl) (by decide) (by decide) (by rfl) (by rfl) (by decide)
  exact ⟨by decide, by decide, h.1⟩

/-- C10: for a valid-signature Complete request on an existing order, when
the provider error field parses to NaN or to a nonpositive value, the
short-circuit does not fire: `onSuccess` is invoked, and when it does not
throw the response is Success (0). -/
theorem C10_nonpositive_provider_error (cfg : ClickConfig) (data : ClickRequestDTO)
    (order : OrderLookupResult)
    (hsig : validateSignString cfg data true = true)
    (hord : cfg.checkOrder data.merchant_trans_id = .ok order)
    (hex : order.exists' = true)
    (hperr : jsParseInt data.error = none ∨
      ∃ n, jsParseInt data.error = some n ∧ n ≤ 0) :
    CollabCall.onSuccess data.click_trans_id data.merchant_trans_id
        data.merchant_prepare_id ∈ (complete cfg data).2 ∧
    (cfg.onSuccess data.click_trans_id data.merchant_trans_id
        data.merchant_prepare_id = .ok () →
      (complete cfg data).1.error = ClickError.Success ∧
      (complete cfg data).1.error_note = "Success") := by
  rcases hperr with h | ⟨n, hn, hle⟩
  · cases hos : cfg.onSuccess data.click_trans_id data.merchant_trans_id
        data.merchant_prepare_id <;>
      simp [complete, completeBody, completeStep4, hsig, hord, hex, h, hos]
  · have hnlt : ¬ (0 < n) := not_lt.mpr hle
    cases hos : cfg.onSuccess data.click_trans_id data.merchant_trans_id
        data.merchant_prepare_id <;>
      simp [complete, completeBody, completeStep4, hsig, hord, hex, hn, hnlt, hos]

/-- C10 witness: the theorem applied to the Complete payload whose error
field is "abc" (parseInt yields NaN). -/
theorem C10_nonpositive_provider_error_witness :
    jsParseInt ((dComp ("abc")).error) = none ∧
    CollabCall.onSuccess 1 ("M") ("P") ∈ (complete cfgExists (dComp ("abc"))).2 ∧
    (complete cfgExists (dComp ("abc"))).1.error = ClickError.Success ∧
    (complete cfgExists (dComp ("abc"))).1.error_note = "Success" := by
  have h := C10_nonpositive_provider_error cfgExists (dComp ("abc"))
    { exists' := true, amount := none } (by decide) (by rfl) (by decide)
    (Or.inl (by decide))
  exact ⟨by decide, h.1, (h.2 (by rfl)).1, (h.2 (by rfl)).2⟩

end Click
